import Mathlib

/-!
Verification development for the credit-scoring core of the `ai-lending`
repository (`utils/credit_scoring.py`, class `CreditScoringModel`).

The Python code is shallowly embedded: Python runtime values are the
inductive type `PyVal` (floats are modelled as exact rationals), raising an
exception is modelled by `Except.error`, and `dict` objects are association
lists in insertion order (the source never builds a dict with duplicate
keys).  Each Lean definition mirrors one Python function or expression of
the source; doc comments cite the source lines.
-/

/-- A Python runtime value, as used by `credit_scoring.py`.  Python `float`
is modelled as an exact rational. -/
inductive PyVal : Type where
  | none : PyVal
  | bool : Bool → PyVal
  | int : ℤ → PyVal
  | float : ℚ → PyVal
  | str : String → PyVal
  | list : List PyVal → PyVal
  | dict : List (String × PyVal) → PyVal

/-- Python truthiness (`bool(v)`), used by `if risk_data.get(...)` and
`... if credit_data else 650` in the source. -/
def pyTruthy : PyVal → Bool
  | .none => false
  | .bool b => b
  | .int n => decide (n ≠ 0)
  | .float q => decide (q ≠ 0)
  | .str s => decide (s ≠ "")
  | .list xs => !xs.isEmpty
  | .dict xs => !xs.isEmpty

/-- Python `v == s` for a string literal `s`: only a `str` can compare
equal to a string (no type in the source overrides `__eq__`). -/
def pyEqStr (v : PyVal) (s : String) : Bool :=
  match v with
  | .str t => t == s
  | _ => false

/-- Python `v.get(k, d)`: association-list lookup for a `dict`, and an
`AttributeError` for every non-dict receiver. -/
def pyGetD (v : PyVal) (k : String) (d : PyVal) : Except String PyVal :=
  match v with
  | .dict xs => .ok ((List.lookup k xs).getD d)
  | _ => .error "AttributeError"

/-- Numeric reading of a value: Python `bool` is an `int` subclass, so
`True`/`False` read as 1/0; non-numbers have no reading. -/
def pyToQ : PyVal → Option ℚ
  | .bool b => some (if b then 1 else 0)
  | .int n => some (n : ℚ)
  | .float q => some q
  | _ => Option.none

/-- Integral reading of a value (`int` and `bool`). -/
def pyToZ : PyVal → Option ℤ
  | .bool b => some (if b then 1 else 0)
  | .int n => some n
  | _ => Option.none

/-- Python `a > b` as used in the source (the right operand is the int
literal `0`): numeric comparison, `TypeError` for non-numeric operands. -/
def pyGt (a b : PyVal) : Except String Bool :=
  match pyToQ a, pyToQ b with
  | some x, some y => .ok (decide (x > y))
  | _, _ => .error "TypeError"

/-- Python true division `a / b`: always a float; `ZeroDivisionError` on a
zero divisor, `TypeError` on non-numeric operands. -/
def pyDiv (a b : PyVal) : Except String PyVal :=
  match pyToQ a, pyToQ b with
  | some x, some y => if y = 0 then .error "ZeroDivisionError" else .ok (.float (x / y))
  | _, _ => .error "TypeError"

/-- Python `a - b`: `int` when both operands are integral (`int`/`bool`),
float otherwise; `TypeError` on non-numeric operands. -/
def pySub (a b : PyVal) : Except String PyVal :=
  match pyToZ a, pyToZ b with
  | some m, some n => .ok (.int (m - n))
  | _, _ =>
    match pyToQ a, pyToQ b with
    | some x, some y => .ok (.float (x - y))
    | _, _ => .error "TypeError"

/-! JSON parsing.  `credit_scoring.py` line 55 calls `json.loads` on a
string-valued `risk_indicators`.  The standard-library parser is modelled
here for the subset the repository stores (objects, arrays, unescaped
strings, integer and decimal numbers, booleans, null); anything outside
the subset is a parse error. -/

/-- Skip JSON whitespace. -/
def skipWs : List Char → List Char
  | [] => []
  | c :: cs => if c = ' ' ∨ c = '\t' ∨ c = '\n' ∨ c = '\r' then skipWs cs else c :: cs

/-- Split a leading run of decimal digits. -/
def takeDigits : List Char → List Char × List Char
  | [] => ([], [])
  | c :: cs =>
    if c.isDigit then
      let p := takeDigits cs
      (c :: p.1, p.2)
    else ([], c :: cs)

/-- Value of a digit run. -/
def digitsToNat (ds : List Char) : ℕ :=
  ds.foldl (fun acc c => 10 * acc + (c.toNat - 48)) 0

/-- Body of a JSON string literal (after the opening quote); escapes are
outside the modelled subset. -/
def jsonStringBody : List Char → Except String (String × List Char)
  | [] => .error "unterminated string"
  | c :: cs =>
    if c = '"' then .ok ("", cs)
    else if c = '\\' then .error "escape not supported"
    else do
      let p ← jsonStringBody cs
      .ok (⟨c :: p.1.data⟩, p.2)

/-- A JSON number after an optional leading minus sign: integer part and
optional fractional part; integers parse to `int`, decimals to `float`,
matching `json.loads`. -/
def jsonNumberTail (neg : Bool) (cs : List Char) : Except String (PyVal × List Char) :=
  let p := takeDigits cs
  if p.1 = [] then .error "invalid number"
  else
    match p.2 with
    | '.' :: cs2 =>
      let f := takeDigits cs2
      if f.1 = [] then .error "invalid number"
      else
        let m : ℚ := (digitsToNat p.1 : ℚ) + (digitsToNat f.1 : ℚ) / ((10 : ℚ) ^ f.1.length)
        .ok (.float (if neg then -m else m), f.2)
    | rest =>
      let n : ℤ := digitsToNat p.1
      .ok (.int (if neg then -n else n), rest)

mutual

/-- One JSON value, fuelled. -/
def jsonValue : ℕ → List Char → Except String (PyVal × List Char)
  | 0, _ => .error "too deep"
  | Nat.succ fuel, cs =>
    match skipWs cs with
    | [] => .error "unexpected end"
    | c :: rest =>
      if c = '\x7b' then
        match skipWs rest with
        | '\x7d' :: rest2 => .ok (.dict [], rest2)
        | cs2 => do
          let p ← jsonMembers fuel cs2
          .ok (.dict p.1, p.2)
      else if c = '[' then
        match skipWs rest with
        | ']' :: rest2 => .ok (.list [], rest2)
        | cs2 => do
          let p ← jsonElems fuel cs2
          .ok (.list p.1, p.2)
      else if c = '"' then do
        let p ← jsonStringBody rest
        .ok (.str p.1, p.2)
      else if c = 't' then
        match rest with
        | 'r' :: 'u' :: 'e' :: rest2 => .ok (.bool true, rest2)
        | _ => .error "invalid literal"
      else if c = 'f' then
        match rest with
        | 'a' :: 'l' :: 's' :: 'e' :: rest2 => .ok (.bool false, rest2)
        | _ => .error "invalid literal"
      else if c = 'n' then
        match rest with
        | 'u' :: 'l' :: 'l' :: rest2 => .ok (.none, rest2)
        | _ => .error "invalid literal"
      else if c = '-' then jsonNumberTail true rest
      else if c.isDigit then jsonNumberTail false (c :: rest)
      else .error "invalid value"

/-- Members of a JSON object (after the opening brace, first member not yet
read), fuelled. -/
def jsonMembers : ℕ → List Char → Except String (List (String × PyVal) × List Char)
  | 0, _ => .error "too deep"
  | Nat.succ fuel, cs =>
    match skipWs cs with
    | '"' :: rest => do
      let pk ← jsonStringBody rest
      match skipWs pk.2 with
      | ':' :: rest3 => do
        let pv ← jsonValue fuel rest3
        match skipWs pv.2 with
        | ',' :: rest5 => do
          let pm ← jsonMembers fuel rest5
          .ok ((pk.1, pv.1) :: pm.1, pm.2)
        | '\x7d' :: rest5 => .ok ([(pk.1, pv.1)], rest5)
        | _ => .error "expected comma or end of object"
      | _ => .error "expected colon"
    | _ => .error "expected key"

/-- Elements of a JSON array (after the opening bracket, first element not
yet read), fuelled. -/
def jsonElems : ℕ → List Char → Except String (List PyVal × List Char)
  | 0, _ => .error "too deep"
  | Nat.succ fuel, cs => do
    let pv ← jsonValue fuel cs
    match skipWs pv.2 with
    | ',' :: rest => do
      let pe ← jsonElems fuel rest
      .ok (pv.1 :: pe.1, pe.2)
    | ']' :: rest => .ok ([pv.1], rest)
    | _ => .error "expected comma or end of array"

end

/-- Model of `json.loads`: parse one value and require only whitespace to
remain. -/
def jsonLoads (s : String) : Except String PyVal := do
  let p ← jsonValue (2 * s.length + 2) s.data
  match skipWs p.2 with
  | [] => .ok p.1
  | _ => .error "Extra data"

/-- Lines 54-55 of the source: a string-valued `risk_indicators` is passed
through `json.loads`; every other value is used as is. -/
def resolveRisk (r : PyVal) : Except String PyVal :=
  match r with
  | .str s => jsonLoads s
  | _ => .ok r

/-- Lines 67-71 of the source: `country_risk_map.get(value, 0.2)`.  The
keys of the map are the six country strings.  `dict.get` hashes its key
first, so an unhashable key (a Python `list` or `dict`) raises
`TypeError`; every hashable non-key value returns the default 0.2. -/
def country_risk_map_get (v : PyVal) : Except String ℚ :=
  match v with
  | .str s =>
    .ok (if s = "Germany" then 0.1
      else if s = "France" then 0.15
      else if s = "Italy" then 0.2
      else if s = "Spain" then 0.25
      else if s = "Poland" then 0.3
      else if s = "Netherlands" then 0.05
      else 0.2)
  | .list _ => .error "TypeError"
  | .dict _ => .error "TypeError"
  | _ => .ok 0.2

/-- Lines 44-50 of the source: the derived financial ratios, computed in
the `monthly_income > 0` branch, with the fixed pair `(1.0, 0.0)` in the
other branch. -/
def ratio_savings (incomePos : Bool) (monthly_expenses monthly_income : PyVal) :
    Except String (PyVal × PyVal) :=
  if incomePos then do
    let r1 ← pyDiv monthly_expenses monthly_income
    let diff ← pySub monthly_income monthly_expenses
    let r2 ← pyDiv diff monthly_income
    pure (r1, r2)
  else
    pure (PyVal.float 1, PyVal.float 0)

/-- Line 64 of the source: `credit_data.get('score', 650) if credit_data
else 650`. -/
def existing_score (credit_data : PyVal) : Except String PyVal :=
  if pyTruthy credit_data then pyGetD credit_data "score" (.int 650) else pure (.int 650)

/-- Lines 28-73 of the source: `CreditScoringModel.prepare_features`.
The returned association list is the `features` dict in insertion order;
`Except.error` models a raised exception. -/
def prepare_features (customer_data : PyVal) : Except String (List (String × PyVal)) := do
  let age ← pyGetD customer_data "age" (.int 35)
  let ctype ← pyGetD customer_data "customer_type" .none
  let bank_data ← pyGetD customer_data "bank_statement" (.dict [])
  let monthly_income ← pyGetD bank_data "monthly_income" (.int 0)
  let monthly_expenses ← pyGetD bank_data "monthly_expenses" (.int 0)
  let current_balance ← pyGetD bank_data "balance" (.int 0)
  let incomePos ← pyGt monthly_income (.int 0)
  let rs ← ratio_savings incomePos monthly_expenses monthly_income
  let risk0 ← pyGetD bank_data "risk_indicators" (.dict [])
  let risk_data ← resolveRisk risk0
  let overdrafts ← pyGetD risk_data "overdrafts" (.int 0)
  let returned_payments ← pyGetD risk_data "returned_payments" (.int 0)
  let gamb ← pyGetD risk_data "gambling_transactions" (.bool false)
  let irr ← pyGetD risk_data "irregular_income" (.bool false)
  let credit_data ← pyGetD customer_data "credit_score" (.dict [])
  let existing ← existing_score credit_data
  let country ← pyGetD customer_data "country" (.str "Germany")
  let crisk ← country_risk_map_get country
  pure [("age", age),
        ("is_business", PyVal.int (if pyEqStr ctype "business" then 1 else 0)),
        ("monthly_income", monthly_income),
        ("monthly_expenses", monthly_expenses),
        ("current_balance", current_balance),
        ("expense_to_income_ratio", rs.1),
        ("savings_rate", rs.2),
        ("overdrafts", overdrafts),
        ("returned_payments", returned_payments),
        ("gambling_transactions", PyVal.int (if pyTruthy gamb then 1 else 0)),
        ("irregular_income", PyVal.int (if pyTruthy irr then 1 else 0)),
        ("existing_credit_score", existing),
        ("country_risk", PyVal.float crisk)]

/-- The canonical feature-name order, i.e. the insertion order of the
`features` dict built by `prepare_features`. -/
def feature_name_list : List String :=
  ["age", "is_business", "monthly_income", "monthly_expenses", "current_balance",
   "expense_to_income_ratio", "savings_rate", "overdrafts", "returned_payments",
   "gambling_transactions", "irregular_income", "existing_credit_score", "country_risk"]

/-- The feature vector `prepare_features` builds from an empty customer
profile: every fallback value of lines 35-71 of the source. -/
def default_features : List (String × PyVal) :=
  [("age", .int 35), ("is_business", .int 0), ("monthly_income", .int 0),
   ("monthly_expenses", .int 0), ("current_balance", .int 0),
   ("expense_to_income_ratio", .float 1), ("savings_rate", .float 0),
   ("overdrafts", .int 0), ("returned_payments", .int 0),
   ("gambling_transactions", .int 0), ("irregular_income", .int 0),
   ("existing_credit_score", .int 650), ("country_risk", .float 0.1)]

/-- Lines 243-245 of the source: `predict_credit_score` builds the feature
vector by `features.get(feature_name, 0)` over the recorded feature-name
order. -/
def predict_feature_vector (feature_names : List String) (features : List (String × PyVal)) : List PyVal :=
  feature_names.map (fun n => (List.lookup n features).getD (.int 0))

/-- Lines 277-288 of the source: `_get_risk_level`. -/
def get_risk_level (credit_score : ℤ) : String :=
  if credit_score ≥ 740 then "Low Risk"
  else if credit_score ≥ 670 then "Medium-Low Risk"
  else if credit_score ≥ 580 then "Medium Risk"
  else "High Risk"

/-- `np.round`: round half to even, on exact rationals. -/
def npRound (q : ℚ) : ℤ :=
  if Int.fract q = 1 / 2 then (if 2 ∣ ⌊q⌋ then ⌊q⌋ else ⌊q⌋ + 1) else round q

/-- Lines 256-257 of the source: `int(np.round(300 + good_credit_prob * 550))`. -/
def credit_score_of (p : ℚ) : ℤ :=
  npRound (300 + p * 550)

/-! The synthetic-data generator, lines 75-161 of the source
(`generate_synthetic_training_data`).  The numpy global random generator is
not part of the repository; it is modelled as a deterministic stream of
draws keyed by the seed: `np.random.seed(42)` resets the stream state, and
each distribution draw consumes state.  The arithmetic shaping each sample
(clamps, income formula, penalty thresholds, Bernoulli labelling) is
translated from the source. -/

/-- State of the modelled numpy global random generator. -/
abbrev RngState : Type := ℕ

/-- Model of `np.random.seed(n)`: the state is reset to a value that
depends only on `n`. -/
def npSeed (n : ℕ) : RngState := n

/-- One step of the modelled generator stream (a 64-bit LCG). -/
def lcgNext (s : RngState) : RngState :=
  (6364136223846793005 * s + 1442695040888963407) % 18446744073709551616

/-- Model of `np.random.random()`: a draw in [0,1) plus the next state. -/
def randU (s : RngState) : ℚ × RngState :=
  let s2 := lcgNext s
  ((s2 : ℚ) / 18446744073709551616, s2)

/-- Model of `np.random.normal(mu, sigma)`. -/
def randNormal (mu sigma : ℚ) (s : RngState) : ℚ × RngState :=
  let p1 := randU s
  let p2 := randU p1.2
  (mu + sigma * (p1.1 + p2.1 - 1), p2.2)

/-- Model of `np.random.uniform(a, b)`. -/
def randUniform (a b : ℚ) (s : RngState) : ℚ × RngState :=
  let p := randU s
  (a + (b - a) * p.1, p.2)

/-- Model of `np.random.poisson(lam)` (a small-count model). -/
def randPoisson (lam : ℚ) (s : RngState) : ℕ × RngState :=
  let p := randU s
  (if p.1 < lam / (lam + 1) then 1 else 0, p.2)

/-- Walk a cumulative-weight table. -/
def pickWeighted : List ℚ → List ℚ → ℚ → ℚ
  | [], _, _ => 0
  | [x], _, _ => x
  | x :: xs, w :: ws, u => if u < w then x else pickWeighted xs ws (u - w)
  | x :: _, [], _ => x

/-- Model of `np.random.choice(xs, p = ws)`. -/
def randChoice (xs ws : List ℚ) (s : RngState) : ℚ × RngState :=
  let p := randU s
  (pickWeighted xs ws p.1, p.2)

/-- Lines 119-141 of the source: the good-credit probability, built by
starting from 0.8 and subtracting a penalty at each crossed threshold,
then clamped by `max(0.05, min(0.95, p))`.  The 0/1 flags are tested by
Python truthiness (`≠ 0`). -/
def goodCreditProb (expRat sav overdrafts returned gambling irregular existing crisk : ℚ) : ℚ :=
  let p0 : ℚ := 0.8
  let p1 := if expRat > 0.9 then p0 - 0.3 else p0
  let p2 := if sav < 0.1 then p1 - 0.2 else p1
  let p3 := if overdrafts > 2 then p2 - 0.3 else p2
  let p4 := if returned > 1 then p3 - 0.4 else p3
  let p5 := if gambling ≠ 0 then p4 - 0.2 else p4
  let p6 := if irregular ≠ 0 then p5 - 0.15 else p5
  let p7 := if existing < 600 then p6 - 0.3 else p6
  let p8 := if crisk > 0.2 then p7 - 0.1 else p7
  max 0.05 (min 0.95 p8)

/-- Line 142 of the source: `1 if np.random.random() < good_credit_prob
else 0`, as a function of the uniform draw `u`. -/
def is_good_credit (u p : ℚ) : ℚ :=
  if u < p then 1 else 0

/-- Lines 82-159 of the source: generate one synthetic sample (the dict
appended to `data`), threading the modelled generator state. -/
def genSample (s : RngState) : List (String × ℚ) × RngState :=
  let pAge := randNormal 40 12 s
  let age := max 18 (min 80 pAge.1)
  let pB := randU pAge.2
  let is_business : ℚ := if pB.1 < 0.7 then 0 else 1
  let base0 : ℚ := 2000 + (age - 25) * 50
  let pMult := if is_business ≠ 0 then randUniform 1.5 3.0 pB.2 else (1, pB.2)
  let base_income := base0 * pMult.1
  let pInc := randNormal base_income (base_income * 0.3) pMult.2
  let monthly_income := max 1000 pInc.1
  let pER := randUniform 0.5 0.95 pInc.2
  let monthly_expenses := monthly_income * pER.1
  let pBal := randNormal (monthly_income * 2) (monthly_income * 0.5) pER.2
  let current_balance := max 0 pBal.1
  let pG1 := randU pBal.2
  let pOd := if pG1.1 < 0.3 then
               (let pp := randPoisson 1 pG1.2; ((pp.1 : ℚ), pp.2))
             else ((0 : ℚ), pG1.2)
  let pG2 := randU pOd.2
  let pRp := if pG2.1 < 0.2 then
               (let pp := randPoisson 0.5 pG2.2; ((pp.1 : ℚ), pp.2))
             else ((0 : ℚ), pG2.2)
  let pG3 := randU pRp.2
  let gambling : ℚ := if pG3.1 < 0.1 then 1 else 0
  let pG4 := randU pG3.2
  let irregular : ℚ := if pG4.1 < 0.15 then 1 else 0
  let pSc := randNormal 700 80 pG4.2
  let existing := max 300 (min 850 pSc.1)
  let pCr := randChoice [0.05, 0.1, 0.15, 0.2, 0.25, 0.3] [0.1, 0.2, 0.2, 0.2, 0.2, 0.1] pSc.2
  let expRat := monthly_expenses / monthly_income
  let sav := (monthly_income - monthly_expenses) / monthly_income
  let prob := goodCreditProb expRat sav pOd.1 pRp.1 gambling irregular existing pCr.1
  let pU := randU pCr.2
  ([("age", age), ("is_business", is_business),
    ("monthly_income", monthly_income), ("monthly_expenses", monthly_expenses),
    ("current_balance", current_balance),
    ("expense_to_income_ratio", expRat), ("savings_rate", sav),
    ("overdrafts", pOd.1), ("returned_payments", pRp.1),
    ("gambling_transactions", gambling), ("irregular_income", irregular),
    ("existing_credit_score", existing), ("country_risk", pCr.1),
    ("is_good_credit", is_good_credit pU.1 prob)], pU.2)

/-- The sample loop, lines 81-159 of the source. -/
def genRows : ℕ → RngState → List (List (String × ℚ)) × RngState
  | 0, s => ([], s)
  | Nat.succ n, s =>
    let p := genSample s
    let q := genRows n p.2
    (p.1 :: q.1, q.2)

/-- Lines 75-161 of the source: `generate_synthetic_training_data` seeds
the generator with 42 (line 79) and then builds `n_samples` rows; the
incoming generator state `s` is the pre-call state of the modelled numpy
global generator, overwritten by the seeding. -/
def generate_synthetic_training_data (n_samples : ℕ) (s : RngState) :
    List (List (String × ℚ)) × RngState :=
  let _pre := s
  genRows n_samples (npSeed 42)

/-- A concrete customer profile whose bank statement reports a zero
monthly income (used as evaluation input). -/
def c5_profile : List (String × PyVal) :=
  [("bank_statement", .dict [("monthly_income", .int 0), ("monthly_expenses", .int 500)])]

/-- The bank statement of `c5_profile`. -/
def c5_bank : List (String × PyVal) :=
  [("monthly_income", .int 0), ("monthly_expenses", .int 500)]

/-- The feature dict `prepare_features` builds from `c5_profile`. -/
def c5_features : List (String × PyVal) :=
  [("age", .int 35), ("is_business", .int 0), ("monthly_income", .int 0),
   ("monthly_expenses", .int 500), ("current_balance", .int 0),
   ("expense_to_income_ratio", .float 1), ("savings_rate", .float 0),
   ("overdrafts", .int 0), ("returned_payments", .int 0),
   ("gambling_transactions", .int 0), ("irregular_income", .int 0),
   ("existing_credit_score", .int 650), ("country_risk", .float 0.1)]

/-- The feature dict `prepare_features` builds from a profile whose only
field is the unmapped country "Atlantis". -/
def c6_features : List (String × PyVal) :=
  [("age", .int 35), ("is_business", .int 0), ("monthly_income", .int 0),
   ("monthly_expenses", .int 0), ("current_balance", .int 0),
   ("expense_to_income_ratio", .float 1), ("savings_rate", .float 0),
   ("overdrafts", .int 0), ("returned_payments", .int 0),
   ("gambling_transactions", .int 0), ("irregular_income", .int 0),
   ("existing_credit_score", .int 650), ("country_risk", .float 0.2)]

/-- A customer-profile shape with every key the source reads present, with
arbitrary values, and the bank statement's `risk_indicators` slot a
parameter. -/
def profileW (a ct co inc exp bal risk cr : PyVal) : PyVal :=
  .dict [("age", a), ("customer_type", ct),
         ("bank_statement", .dict [("monthly_income", inc), ("monthly_expenses", exp),
                                   ("balance", bal), ("risk_indicators", risk)]),
         ("credit_score", cr), ("country", co)]

/-! Helper lemmas. -/

/-- The half-to-even rounding is never more than one half above its
argument. -/
theorem npRound_le (q : ℚ) : (npRound q : ℚ) ≤ q + 1 / 2 := by
  unfold npRound
  split_ifs with h1 h2
  · have hf : q - ⌊q⌋ = 1 / 2 := by rw [Int.self_sub_floor]; exact h1
    linarith
  · have hf : q - ⌊q⌋ = 1 / 2 := by rw [Int.self_sub_floor]; exact h1
    push_cast
    linarith
  · have h := abs_sub_round q
    rw [abs_le] at h
    linarith [h.1, h.2]

/-- The half-to-even rounding is never more than one half below its
argument. -/
theorem le_npRound (q : ℚ) : q - 1 / 2 ≤ (npRound q : ℚ) := by
  unfold npRound
  split_ifs with h1 h2
  · have hf : q - ⌊q⌋ = 1 / 2 := by rw [Int.self_sub_floor]; exact h1
    linarith
  · have hf : q - ⌊q⌋ = 1 / 2 := by rw [Int.self_sub_floor]; exact h1
    push_cast
    linarith
  · have h := abs_sub_round q
    rw [abs_le] at h
    linarith [h.1, h.2]

/-- Half-to-even rounding is monotone. -/
theorem npRound_mono {a b : ℚ} (hab : a ≤ b) : npRound a ≤ npRound b := by
  by_contra hlt
  push_neg at hlt
  have h1 : npRound b + 1 ≤ npRound a := hlt
  have h1q : (npRound b : ℚ) + 1 ≤ (npRound a : ℚ) := by exact_mod_cast h1
  have h2 := npRound_le a
  have h3 := le_npRound b
  have hba : b ≤ a := by linarith
  have heq : a = b := le_antisymm hab hba
  subst heq
  omega

/-- A conditional penalty subtraction is the subtraction of a conditional
penalty. -/
theorem ite_sub_acc (c : Prop) [Decidable c] (p d : ℚ) :
    (if c then p - d else p) = p - (if c then d else 0) := by
  split_ifs <;> ring

/-- Inversion for a successful `Except` bind. -/
theorem except_bind_ok {α β : Type} {x : Except String α} {f : α → Except String β} {b : β} :
    (x >>= f) = Except.ok b ↔ ∃ a, x = Except.ok a ∧ f a = Except.ok b := by
  cases x <;> simp [Bind.bind, Except.bind]

/-- Inversion for a successful `Except` pure. -/
theorem except_pure_ok {α : Type} {a b : α} :
    (pure a : Except String α) = Except.ok b ↔ a = b := by
  simp [pure, Except.pure]

/-- Reduction of a bind on a success. -/
theorem except_bind_ok_l {α β : Type} (a : α) (f : α → Except String β) :
    ((Except.ok a : Except String α) >>= f) = f a := rfl

/-- Reduction of a bind on an error. -/
theorem except_bind_err {α β : Type} (e : String) (f : α → Except String β) :
    ((Except.error e : Except String α) >>= f) = .error e := rfl

/-- A `.get` on a non-dict raises `AttributeError`. -/
theorem pyGetD_not_dict {v : PyVal} (h : ∀ xs, v ≠ .dict xs) (k : String) (d : PyVal) :
    pyGetD v k d = .error "AttributeError" := by
  cases v <;> try rfl
  exact (h _ rfl).elim

/-- Comparison of two numeric values. -/
theorem pyGt_num {a b : PyVal} {x y : ℚ} (ha : pyToQ a = some x) (hb : pyToQ b = some y) :
    pyGt a b = .ok (decide (x > y)) := by
  unfold pyGt
  rw [ha, hb]

/-- Division of two numeric values. -/
theorem pyDiv_num {a b : PyVal} {x y : ℚ} (ha : pyToQ a = some x) (hb : pyToQ b = some y)
    (hy : y ≠ 0) : pyDiv a b = .ok (.float (x / y)) := by
  unfold pyDiv
  rw [ha, hb]
  simp [hy]

/-- Subtraction of two numeric values, at the level of their numeric
readings. -/
theorem pySub_num {a b : PyVal} {x y : ℚ} (ha : pyToQ a = some x) (hb : pyToQ b = some y) :
    ∃ v, pySub a b = .ok v ∧ pyToQ v = some (x - y) := by
  cases a <;> cases b <;> simp [pyToQ] at ha hb
  all_goals subst ha
  all_goals subst hb
  all_goals refine ⟨_, rfl, ?_⟩
  all_goals simp only [pySub, pyToZ, pyToQ, Option.some.injEq]
  all_goals try split_ifs
  all_goals push_cast
  all_goals ring

/-! The claims. -/

/-- C1: the spec requires a feature-order/name-set mismatch at prediction
time to be a fatal error, but lines 243-245 of the source build the vector
with `features.get(feature_name, 0)`: a recorded name absent from the
built features is silently given the value 0 and a score is still
produced.  Evaluated here at the failing input: the feature-name list
`["age", "nonexistent_feature"]` against the default feature dict. -/
theorem c1_silent_zero_substitution :
    prepare_features (.dict []) = .ok default_features ∧
    "nonexistent_feature" ∉ default_features.map Prod.fst ∧
    predict_feature_vector ["age", "nonexistent_feature"] default_features =
      [.int 35, .int 0] :=
  ⟨rfl, by decide, rfl⟩

/-- C2: the probability-to-score map `round(300 + p * 550)` lands in
[300, 850] for every p in [0, 1] and is monotonically non-decreasing. -/
theorem c2_score_range_and_monotone (p p1 p2 : ℚ)
    (hp0 : 0 ≤ p) (hp1 : p ≤ 1) (h12 : p1 ≤ p2) :
    300 ≤ credit_score_of p ∧ credit_score_of p ≤ 850 ∧
    credit_score_of p1 ≤ credit_score_of p2 := by
  refine ⟨?_, ?_, ?_⟩
  · have h := le_npRound (300 + p * 550)
    have hx : (299 : ℚ) < (credit_score_of p : ℚ) := by
      unfold credit_score_of
      nlinarith
    have : (299 : ℤ) < credit_score_of p := by exact_mod_cast hx
    omega
  · have h := npRound_le (300 + p * 550)
    have hx : (credit_score_of p : ℚ) < 851 := by
      unfold credit_score_of
      nlinarith
    have : credit_score_of p < (851 : ℤ) := by exact_mod_cast hx
    omega
  · exact npRound_mono (by linarith)

/-- Witness for C2 at p = 1/2, p1 = 0, p2 = 1. -/
theorem c2_witness :
    (0 : ℚ) ≤ 1 / 2 ∧ (1 / 2 : ℚ) ≤ 1 ∧ (0 : ℚ) ≤ 1 ∧
    (300 ≤ credit_score_of (1 / 2) ∧ credit_score_of (1 / 2) ≤ 850 ∧
      credit_score_of 0 ≤ credit_score_of 1) :=
  ⟨by norm_num, by norm_num, by norm_num,
   c2_score_range_and_monotone (1 / 2) 0 1 (by norm_num) (by norm_num) (by norm_num)⟩

/-- C3: `_get_risk_level` boundary values and the four threshold bands. -/
theorem c3_risk_level_thresholds (s : ℤ) :
    get_risk_level 740 = "Low Risk" ∧ get_risk_level 739 = "Medium-Low Risk" ∧
    get_risk_level 670 = "Medium-Low Risk" ∧ get_risk_level 669 = "Medium Risk" ∧
    get_risk_level 580 = "Medium Risk" ∧ get_risk_level 579 = "High Risk" ∧
    (740 ≤ s → get_risk_level s = "Low Risk") ∧
    (670 ≤ s → s < 740 → get_risk_level s = "Medium-Low Risk") ∧
    (580 ≤ s → s < 670 → get_risk_level s = "Medium Risk") ∧
    (s < 580 → get_risk_level s = "High Risk") := by
  refine ⟨rfl, rfl, rfl, rfl, rfl, rfl, ?_, ?_, ?_, ?_⟩
  · intro h; unfold get_risk_level; rw [if_pos (by omega)]
  · intro h1 h2; unfold get_risk_level; rw [if_neg (by omega), if_pos (by omega)]
  · intro h1 h2; unfold get_risk_level
    rw [if_neg (by omega), if_neg (by omega), if_pos (by omega)]
  · intro h; unfold get_risk_level
    rw [if_neg (by omega), if_neg (by omega), if_neg (by omega)]

/-- Witness for C3 at score 700. -/
theorem c3_witness :
    (670 : ℤ) ≤ 700 ∧ (700 : ℤ) < 740 ∧ get_risk_level 700 = "Medium-Low Risk" :=
  ⟨by norm_num, by norm_num,
   (c3_risk_level_thresholds 700).2.2.2.2.2.2.2.1 (by norm_num) (by norm_num)⟩

/-- C4: whenever `prepare_features` returns a feature dict, its name set
(in insertion order) is exactly the fixed 13-name list; and the profile
with every optional field absent yields exactly the documented default
values. -/
theorem c4_feature_completeness (cd : PyVal) (fs : List (String × PyVal))
    (h : prepare_features cd = .ok fs) :
    fs.map Prod.fst = feature_name_list ∧
    prepare_features (.dict []) = .ok default_features := by
  refine ⟨?_, rfl⟩
  simp only [prepare_features] at h
  simp only [except_bind_ok, except_pure_ok] at h
  obtain ⟨age, -, ct, -, bank, -, inc, -, expv, -, bal, -, ipos, -, rs, -, r0, -,
    rdat, -, od, -, rp, -, gmb, -, irr, -, crd, -, ex, -, co, -, cr, -, hfs⟩ := h
  subst hfs
  rfl

/-- Witness for C4 at the empty profile. -/
theorem c4_witness :
    prepare_features (.dict []) = .ok default_features ∧
    default_features.map Prod.fst = feature_name_list :=
  ⟨rfl, (c4_feature_completeness (.dict []) default_features rfl).1⟩

/-- C5: in any successful run of `prepare_features`, a bank statement
whose `monthly_income` reads as the number 0 (in particular the absent
default `0`) yields `expense_to_income_ratio = 1.0` and
`savings_rate = 0.0` whatever `monthly_expenses` holds; and a positive
numeric income `qi` with numeric expenses `qe` yields the ratios
`qe / qi` and `(qi - qe) / qi`. -/
theorem c5_income_fallbacks (cd bs fs : List (String × PyVal))
    (hbank : (List.lookup "bank_statement" cd).getD (.dict []) = .dict bs)
    (hrun : prepare_features (.dict cd) = .ok fs) :
    (pyToQ ((List.lookup "monthly_income" bs).getD (.int 0)) = some 0 →
      List.lookup "expense_to_income_ratio" fs = some (.float 1) ∧
      List.lookup "savings_rate" fs = some (.float 0)) ∧
    (∀ qi qe, pyToQ ((List.lookup "monthly_income" bs).getD (.int 0)) = some qi → 0 < qi →
      pyToQ ((List.lookup "monthly_expenses" bs).getD (.int 0)) = some qe →
      List.lookup "expense_to_income_ratio" fs = some (.float (qe / qi)) ∧
      List.lookup "savings_rate" fs = some (.float ((qi - qe) / qi))) := by
  simp only [prepare_features] at hrun
  simp only [except_bind_ok, except_pure_ok] at hrun
  obtain ⟨age, hage, ct, hct, bank, hbk, inc, hinc, expv, hexp, bal, hbal, ipos, hipos,
    rs, hrs, r0, hr0, rdat, hrdat, od, hod, rp, hrp, gmb, hgmb, irr, hirr, crd, hcrd,
    ex, hex, co, hco, cr, hcr, hfs⟩ := hrun
  simp only [pyGetD, Except.ok.injEq] at hbk
  rw [hbank] at hbk
  subst hbk
  simp only [pyGetD, Except.ok.injEq] at hinc hexp
  constructor
  · intro h0
    rw [hinc] at h0
    rw [pyGt_num h0 (show pyToQ (.int 0) = some 0 from rfl)] at hipos
    simp only [Except.ok.injEq] at hipos
    have hipos2 : ipos = false := by rw [← hipos]; simp
    subst hipos2
    simp only [ratio_savings, Bool.false_eq_true, if_false, except_pure_ok] at hrs
    subst hrs
    subst hfs
    exact ⟨rfl, rfl⟩
  · intro qi qe hqi hpos hqe
    rw [hinc] at hqi
    rw [hexp] at hqe
    rw [pyGt_num hqi (show pyToQ (.int 0) = some 0 from rfl)] at hipos
    simp only [Except.ok.injEq] at hipos
    have hipos2 : ipos = true := by rw [← hipos]; simp [hpos]
    subst hipos2
    simp only [ratio_savings, if_true, except_bind_ok, except_pure_ok] at hrs
    obtain ⟨r1, hr1, df, hdf, r2, hr2, hrs2⟩ := hrs
    have hqi0 : qi ≠ 0 := ne_of_gt hpos
    rw [pyDiv_num hqe hqi hqi0] at hr1
    simp only [Except.ok.injEq] at hr1
    obtain ⟨dv, hdv, hdvq⟩ := pySub_num hqi hqe
    rw [hdv] at hdf
    simp only [Except.ok.injEq] at hdf
    subst hdf
    rw [pyDiv_num hdvq hqi hqi0] at hr2
    simp only [Except.ok.injEq] at hr2
    subst hr1
    subst hr2
    subst hrs2
    subst hfs
    exact ⟨rfl, rfl⟩

/-- Witness for C5 at a profile with income 0 and expenses 500. -/
theorem c5_witness :
    (List.lookup "bank_statement" c5_profile).getD (.dict []) = .dict c5_bank ∧
    prepare_features (.dict c5_profile) = .ok c5_features ∧
    pyToQ ((List.lookup "monthly_income" c5_bank).getD (.int 0)) = some 0 ∧
    (List.lookup "expense_to_income_ratio" c5_features = some (.float 1) ∧
      List.lookup "savings_rate" c5_features = some (.float 0)) :=
  ⟨rfl, rfl, rfl, (c5_income_fallbacks c5_profile c5_bank c5_features rfl rfl).1 rfl⟩

/-- C6 counterexample: the claim says a profile with no country field gets
the default weight 0.2, but the source defaults an absent country to
"Germany" (line 71), whose weight is 0.1. -/
theorem c6_counterexample_absent_country :
    prepare_features (.dict []) = .ok default_features ∧
    List.lookup "country_risk" default_features = some (.float 0.1) ∧
    PyVal.float 0.1 ≠ PyVal.float 0.2 := by
  refine ⟨rfl, rfl, fun h => ?_⟩
  injection h with h2
  norm_num at h2

/-- C6 (amended): in any successful run the `country_risk` feature is
whatever the country-table lookup returns for the profile's country; a
present string country outside the six configured names gets the default
weight 0.2; a profile with no country field at all is looked up as
"Germany" and gets 0.1, not 0.2; and the six configured countries map to
their table values, all of which lie in [0, 1]. -/
theorem c6_country_risk_amended (cd fs : List (String × PyVal))
    (h : prepare_features (.dict cd) = .ok fs) :
    (∀ c q, List.lookup "country" cd = some c → country_risk_map_get c = .ok q →
      List.lookup "country_risk" fs = some (.float q)) ∧
    (∀ s, List.lookup "country" cd = some (.str s) →
      s ∉ (["Germany", "France", "Italy", "Spain", "Poland", "Netherlands"] : List String) →
      List.lookup "country_risk" fs = some (.float 0.2)) ∧
    (List.lookup "country" cd = Option.none →
      List.lookup "country_risk" fs = some (.float 0.1)) ∧
    (country_risk_map_get (.str "Germany") = .ok 0.1 ∧
      country_risk_map_get (.str "France") = .ok 0.15 ∧
      country_risk_map_get (.str "Italy") = .ok 0.2 ∧
      country_risk_map_get (.str "Spain") = .ok 0.25 ∧
      country_risk_map_get (.str "Poland") = .ok 0.3 ∧
      country_risk_map_get (.str "Netherlands") = .ok 0.05) ∧
    (∀ v q, country_risk_map_get v = .ok q → 0 ≤ q ∧ q ≤ 1) := by
  have hmain : ∀ c q, (List.lookup "country" cd).getD (.str "Germany") = c →
      country_risk_map_get c = .ok q →
      List.lookup "country_risk" fs = some (.float q) := by
    intro c q hc hq
    simp only [prepare_features] at h
    simp only [except_bind_ok, except_pure_ok] at h
    obtain ⟨age, hage, ct, hct, bank, hbk, inc, hinc, expv, hexp, bal, hbal, ipos, hipos,
      rs, hrs, r0, hr0, rdat, hrdat, od, hod, rp, hrp, gmb, hgmb, irr, hirr, crd, hcrd,
      ex, hex, co, hco, cr, hcr, hfs⟩ := h
    simp only [pyGetD, Except.ok.injEq] at hco
    rw [hc] at hco
    subst hco
    rw [hq, Except.ok.injEq] at hcr
    subst hcr
    subst hfs
    rfl
  refine ⟨?_, ?_, ?_, ⟨rfl, rfl, rfl, rfl, rfl, rfl⟩, ?_⟩
  · intro c q hc hq
    exact hmain c q (by rw [hc]; rfl) hq
  · intro s hsl hs
    simp only [List.mem_cons, List.not_mem_nil, or_false, not_or] at hs
    obtain ⟨h1, h2, h3, h4, h5, h6⟩ := hs
    refine hmain (.str s) 0.2 (by rw [hsl]; rfl) ?_
    simp only [country_risk_map_get]
    rw [if_neg h1, if_neg h2, if_neg h3, if_neg h4, if_neg h5, if_neg h6]
  · intro h0
    exact hmain (.str "Germany") 0.1 (by rw [h0]; rfl) rfl
  · intro v q hq
    cases v with
    | str s =>
      simp only [country_risk_map_get, Except.ok.injEq] at hq
      split_ifs at hq <;> subst hq <;> norm_num
    | list xs => exact absurd hq (by simp [country_risk_map_get])
    | dict xs => exact absurd hq (by simp [country_risk_map_get])
    | none => simp only [country_risk_map_get, Except.ok.injEq] at hq; subst hq; norm_num
    | bool b => simp only [country_risk_map_get, Except.ok.injEq] at hq; subst hq; norm_num
    | int n => simp only [country_risk_map_get, Except.ok.injEq] at hq; subst hq; norm_num
    | float x => simp only [country_risk_map_get, Except.ok.injEq] at hq; subst hq; norm_num

/-- Witness for C6 (amended) at the unmapped country "Atlantis". -/
theorem c6_witness :
    prepare_features (.dict [("country", .str "Atlantis")]) = .ok c6_features ∧
    "Atlantis" ∉ (["Germany", "France", "Italy", "Spain", "Poland", "Netherlands"] : List String) ∧
    List.lookup "country_risk" c6_features = some (.float 0.2) :=
  ⟨rfl, by decide,
   (c6_country_risk_amended [("country", .str "Atlantis")] c6_features rfl).2.1 "Atlantis" rfl
     (by decide)⟩


/-- C7: the good-credit probability of a synthetic sample equals 0.8 minus
the sum of the eight threshold penalties, clamped to [0.05, 0.95], and the
binary label is the Bernoulli trial `1 if u < p else 0` on the uniform
draw `u`. -/
theorem c7_good_credit_prob_spec (er sav od rp g ir ex cr u : ℚ) :
    goodCreditProb er sav od rp g ir ex cr =
      max 0.05 (min 0.95 (0.8 -
        ((if er > 0.9 then (0.3 : ℚ) else 0) + (if sav < 0.1 then (0.2 : ℚ) else 0) +
         (if od > 2 then (0.3 : ℚ) else 0) + (if rp > 1 then (0.4 : ℚ) else 0) +
         (if g ≠ 0 then (0.2 : ℚ) else 0) + (if ir ≠ 0 then (0.15 : ℚ) else 0) +
         (if ex < 600 then (0.3 : ℚ) else 0) + (if cr > 0.2 then (0.1 : ℚ) else 0)))) ∧
    (0.05 ≤ goodCreditProb er sav od rp g ir ex cr ∧
      goodCreditProb er sav od rp g ir ex cr ≤ 0.95) ∧
    (is_good_credit u (goodCreditProb er sav od rp g ir ex cr) = 1 ↔
      u < goodCreditProb er sav od rp g ir ex cr) := by
  have key : goodCreditProb er sav od rp g ir ex cr =
      max 0.05 (min 0.95 (0.8 -
        ((if er > 0.9 then (0.3 : ℚ) else 0) + (if sav < 0.1 then (0.2 : ℚ) else 0) +
         (if od > 2 then (0.3 : ℚ) else 0) + (if rp > 1 then (0.4 : ℚ) else 0) +
         (if g ≠ 0 then (0.2 : ℚ) else 0) + (if ir ≠ 0 then (0.15 : ℚ) else 0) +
         (if ex < 600 then (0.3 : ℚ) else 0) + (if cr > 0.2 then (0.1 : ℚ) else 0)))) := by
    simp only [goodCreditProb]
    simp only [ite_sub_acc]
    ring_nf
  refine ⟨key, ?_, ?_⟩
  · rw [key]
    exact ⟨le_max_left _ _, max_le (by norm_num) (min_le_left _ _)⟩
  · unfold is_good_credit
    split_ifs with h
    · simp [h]
    · simp [h]

/-- C8: the generator re-seeds the modelled numpy state with the fixed
seed 42 at the start of every call, so the produced table depends only on
`n_samples`: any two calls, from any two pre-call generator states,
produce identical tables, and so does an immediate second call. -/
theorem c8_generator_reproducible (n : ℕ) (s1 s2 : RngState) :
    (generate_synthetic_training_data n s1).1 = (generate_synthetic_training_data n s2).1 ∧
    (generate_synthetic_training_data n
        (generate_synthetic_training_data n s1).2).1 =
      (generate_synthetic_training_data n s1).1 := ⟨rfl, rfl⟩

/-- C9 counterexample: the claim says malformed nested data is treated as
absent with no error, but a profile whose `bank_statement` is the integer
5 makes `prepare_features` raise `AttributeError` (line 40 of the source,
`bank_data.get` on a non-dict), while the truly absent field succeeds. -/
theorem c9_counterexample_malformed_nested :
    prepare_features (.dict [("bank_statement", .int 5)]) = .error "AttributeError" ∧
    prepare_features (.dict []) = .ok default_features :=
  ⟨rfl, rfl⟩

/-- C9 (amended): `prepare_features` fails on a non-mapping input; and
malformed nested data is not in general treated as absent: a present
`bank_statement` that is not a mapping raises `AttributeError`.  Absent
nested fields resolve to the documented defaults without error, and a
present but falsy `credit_score` (such as `None`) also resolves to the
default 650 without error, by the truthiness guard of line 64. -/
theorem c9_error_behaviour_amended (v b w : PyVal) (cd : List (String × PyVal)) :
    ((∀ xs, v ≠ .dict xs) → prepare_features v = .error "AttributeError") ∧
    (List.lookup "bank_statement" cd = some b → (∀ xs, b ≠ .dict xs) →
      prepare_features (.dict cd) = .error "AttributeError") ∧
    prepare_features (.dict []) = .ok default_features ∧
    (pyTruthy w = false → existing_score w = .ok (.int 650)) ∧
    prepare_features (.dict [("credit_score", .none)]) = .ok default_features := by
  refine ⟨?_, ?_, rfl, ?_, rfl⟩
  · intro h
    cases v <;> try rfl
    exact (h _ rfl).elim
  · intro hb hnd
    simp only [prepare_features, pyGetD, except_bind_ok_l, hb, Option.getD_some,
      pyGetD_not_dict hnd, except_bind_err]
  · intro hw
    simp only [existing_score, hw, Bool.false_eq_true, if_false]
    rfl

/-- Witness for C9 (amended): a non-mapping profile, a profile whose bank
statement is a bare string, and the falsy credit record `None`. -/
theorem c9_witness :
    prepare_features (.int 3) = .error "AttributeError" ∧
    prepare_features (.dict [("bank_statement", .str "oops")]) = .error "AttributeError" ∧
    existing_score .none = .ok (.int 650) :=
  ⟨(c9_error_behaviour_amended (.int 3) (.str "oops") .none
      [("bank_statement", .str "oops")]).1 (fun _ h => PyVal.noConfusion h),
   (c9_error_behaviour_amended (.int 3) (.str "oops") .none
      [("bank_statement", .str "oops")]).2.1 rfl (fun _ h => PyVal.noConfusion h),
   (c9_error_behaviour_amended (.int 3) (.str "oops") .none
      [("bank_statement", .str "oops")]).2.2.2.1 rfl⟩


/-- C10: a `risk_indicators` supplied as a JSON string that parses to an
object produces exactly the same feature dict as the object itself
supplied as a mapping (lines 53-60 of the source). -/
theorem c10_json_risk_string (a ct co inc exp bal cr : PyVal) (s : String)
    (d : List (String × PyVal)) (h : jsonLoads s = .ok (.dict d)) :
    prepare_features (profileW a ct co inc exp bal (.str s) cr) =
      prepare_features (profileW a ct co inc exp bal (.dict d) cr) := by
  simp [prepare_features, profileW, pyGetD, resolveRisk, h, except_bind_ok_l,
    List.lookup]

/-- Witness for C10 on the JSON object string with an overdraft count. -/
theorem c10_witness :
    jsonLoads "\x7b\"overdrafts\": 3\x7d" = .ok (.dict [("overdrafts", .int 3)]) ∧
    prepare_features (profileW (.int 30) (.str "business") (.str "France") (.int 1000)
        (.int 400) (.int 50) (.str "\x7b\"overdrafts\": 3\x7d") (.dict [])) =
      prepare_features (profileW (.int 30) (.str "business") (.str "France") (.int 1000)
        (.int 400) (.int 50) (.dict [("overdrafts", .int 3)]) (.dict [])) :=
  ⟨rfl, c10_json_risk_string (.int 30) (.str "business") (.str "France") (.int 1000)
    (.int 400) (.int 50) (.dict []) "\x7b\"overdrafts\": 3\x7d" [("overdrafts", .int 3)] rfl⟩
